import Mathlib

/-!
Verification development for the 3ML plugin prototype contract, as shown in the
repository notebook docs/notebooks/custom_plugins.ipynb.  The notebook defines
the abstract base class PluginPrototype (construction-time validation of the
plugin name and of the nuisance-parameter dictionary, an optional tag, a
deprecated get_name accessor, a default get_number_of_data_points) together
with a concrete subclass GoodPlugin.  We embed the classes shallowly: object
state becomes a structure, methods become functions from state to
(state, result, warnings), Python exceptions become an error type, and Python
float literals become exact rationals.
-/

/-- Warnings emitted through the Python warnings module: these are non-fatal. -/
inductive PyWarning where
  | deprecationWarning (msg : String)
  | userWarning (msg : String)
deriving DecidableEq, Repr

/-- Python exceptions raised by the code under study. -/
inductive PyError where
  | assertionError
  | typeError
  | valueError
deriving DecidableEq, Repr

/-- An astromodels Parameter object as constructed in the notebook: a scalar
value with bounds, a step size, a free flag and a description. -/
structure ParameterObj where
  name : String
  value : Rat
  min_value : Rat
  max_value : Rat
  delta : Rat
  free : Bool
  desc : String
deriving DecidableEq, Repr

/-- The Python values that flow through the plugin interface: None, strings,
floats, IndependentVariable instances, Parameter objects, dictionaries mapping
names to parameters, and likelihood model objects. -/
inductive PyObj where
  | none
  | str (s : String)
  | float (q : Rat)
  | independentVariable (id : Nat)
  | parameter (p : ParameterObj)
  | dict (entries : List (String × ParameterObj))
  | model (id : Nat)
deriving DecidableEq, Repr

/-- isinstance(x, dict) for our value universe. -/
def PyObj.isDict : PyObj → Bool
  | .dict _ => true
  | _ => false

/-- isinstance(x, IndependentVariable) for our value universe. -/
def PyObj.isIndependentVariable : PyObj → Bool
  | .independentVariable _ => true
  | _ => false

/-- ASCII lowercasing of one character, as Python str.lower acts on the ASCII
range used by the code. -/
def asciiLower (c : Char) : Char :=
  if c.isUpper then Char.ofNat (c.toNat + 32) else c

/-- Python str.lower restricted to the ASCII range, acting characterwise. -/
def pyLower (s : String) : String :=
  String.mk (s.toList.map asciiLower)

/-- First character of a Python identifier: a letter or an underscore. -/
def isIdentStart (c : Char) : Bool :=
  c.isAlpha || c = '_'

/-- Later character of a Python identifier: a letter, a digit or an underscore. -/
def isIdentChar (c : Char) : Bool :=
  c.isAlphanum || c = '_'

/-- Modelled from the spec: the helper is_valid_variable_name is called by
PluginPrototype.__init__ but its definition is not under src/.  The spec and
the assertion message in the notebook describe it as accepting exactly the
strings usable as python variable names: no spaces, cannot start with a
number, cannot contain operator symbols such as -, +, *, /.  We model it as:
nonempty, first character a letter or underscore, remaining characters
letters, digits or underscores. -/
def is_valid_variable_name (s : String) : Bool :=
  match s.toList with
  | [] => false
  | c :: cs => isIdentStart c && cs.all isIdentChar

/-- The state of a PluginPrototype instance: the private attributes assigned
by __init__ (_name, _nuisance_parameters, _tag).  The tag is None initially
and a 3-tuple (independent_variable, start, end) once set. -/
structure PluginState where
  _name : String
  _nuisance_parameters : List (String × ParameterObj)
  _tag : Option (PyObj × PyObj × PyObj)
deriving DecidableEq, Repr

namespace PluginPrototype

/-- PluginPrototype.__init__: asserts that the name is a valid python variable
name, that its lowercasing is not the reserved word total, and that the
nuisance parameters are a dict; then stores the name and the parameters and
initialises the tag to None.  A failed assert raises AssertionError. -/
def init (name : String) (nuisance_parameters : PyObj) : Except PyError PluginState :=
  if !is_valid_variable_name name then
    .error .assertionError
  else if pyLower name == "total" then
    .error .assertionError
  else
    match nuisance_parameters with
    | .dict entries => .ok { _name := name, _nuisance_parameters := entries, _tag := Option.none }
    | _ => .error .assertionError

/-- The name property: returns self._name. -/
def name (st : PluginState) : String :=
  st._name

/-- The nuisance_parameters property: returns the stored dictionary. -/
def nuisance_parameters (st : PluginState) : PyObj :=
  .dict st._nuisance_parameters

/-- get_name: warns that the accessor is deprecated and returns the name
property. -/
def get_name (st : PluginState) : String × List PyWarning :=
  (name st, [.deprecationWarning "Do not use get_name for plugins, use the .name property"])

/-- update_nuisance_parameters: asserts the argument is a dict, then replaces
the stored dictionary.  Returns the (possibly updated) state and the raised
error, if any. -/
def update_nuisance_parameters (st : PluginState) (new_nuisance_parameters : PyObj) :
    PluginState × Option PyError :=
  match new_nuisance_parameters with
  | .dict entries => ({ st with _nuisance_parameters := entries }, Option.none)
  | _ => (st, some .assertionError)

/-- get_number_of_data_points: the default implementation warns that
statistical measurements such as AIC or BIC are unreliable and returns the
float 1. -/
def get_number_of_data_points (_st : PluginState) : Rat × List PyWarning :=
  (1, [.userWarning "get_number_of_data_points not implemented, values for statistical measurements such as AIC or BIC are unreliable"])

/-- _get_tag: returns self._tag. -/
def get_tag (st : PluginState) : Option (PyObj × PyObj × PyObj) :=
  st._tag

/-- The lazy isinstance check in _set_tag: a warning when the tagged
independent variable is not an IndependentVariable instance. -/
def lazyCheckWarnings (independent_variable : PyObj) : List PyWarning :=
  if independent_variable.isIndependentVariable then []
  else [.userWarning "When tagging a plugin, you should use an IndependentVariable instance. Using another type might lead to crashes or other problems."]

/-- _set_tag: a specification of length 2 is read as (independent_variable,
start) with end = None, one of length 3 as (independent_variable, start, end);
any other length raises ValueError before anything is assigned.  On success
the triple is stored in self._tag.  Returns the (possibly updated) state, the
raised error if any, and the emitted warnings. -/
def set_tag (st : PluginState) (spec : List PyObj) :
    PluginState × Option PyError × List PyWarning :=
  match spec with
  | [independent_variable, start] =>
      ({ st with _tag := some (independent_variable, start, .none) },
        Option.none, lazyCheckWarnings independent_variable)
  | [independent_variable, start, e] =>
      ({ st with _tag := some (independent_variable, start, e) },
        Option.none, lazyCheckWarnings independent_variable)
  | _ => (st, some .valueError, [])

end PluginPrototype

/-- A subclass of PluginPrototype, characterised by which of the three
abstract methods set_model, get_log_like and inner_fit it overrides.  The
notebook BadPlugin overrides none of them; GoodPlugin overrides all three. -/
structure PluginSubclass where
  implements_set_model : Bool
  implements_get_log_like : Bool
  implements_inner_fit : Bool
deriving DecidableEq, Repr

/-- A subclass is concrete when it supplies all three abstract methods. -/
def PluginSubclass.isConcrete (c : PluginSubclass) : Bool :=
  c.implements_set_model && c.implements_get_log_like && c.implements_inner_fit

/-- Python abc.ABCMeta semantics shown in the notebook: calling a subclass of
PluginPrototype raises TypeError when any abstract method is left
unimplemented (before __init__ runs); otherwise PluginPrototype.__init__
runs with the given arguments. -/
def instantiate (c : PluginSubclass) (name : String) (nuisance_parameters : PyObj) :
    Except PyError PluginState :=
  if !c.isConcrete then .error .typeError
  else PluginPrototype.init name nuisance_parameters

/-- The state of a GoodPlugin instance: the inherited PluginPrototype
attributes plus the _model attribute assigned by set_model (absent until the
first call). -/
structure GoodPluginState extends PluginState where
  _model : Option PyObj
deriving DecidableEq, Repr

namespace GoodPlugin

/-- The dummy nuisance parameter built by GoodPlugin.__init__:
Parameter("dummy_" + name, 1.0, min_value=0.8, max_value=1.2, delta=0.05,
free=False, desc="A dummy parameter for " + name). -/
def dummyParameter (name : String) : ParameterObj :=
  { name := "dummy_" ++ name
    value := 1
    min_value := (4 : Rat) / 5
    max_value := (6 : Rat) / 5
    delta := (1 : Rat) / 20
    free := false
    desc := "A dummy parameter for " ++ name }

/-- GoodPlugin.__init__: builds an ordered dict holding the dummy parameter
under its name and calls the prototype constructor with it. -/
def init (name : String) : Except PyError GoodPluginState :=
  match PluginPrototype.init name (.dict [((dummyParameter name).name, dummyParameter name)]) with
  | .ok st => .ok { toPluginState := st, _model := Option.none }
  | .error e => .error e

/-- GoodPlugin.set_model: attaches the model object to self._model. -/
def set_model (g : GoodPluginState) (model : PyObj) : GoodPluginState :=
  { g with _model := some model }

/-- GoodPlugin.get_log_like: returns the float -99 and leaves the state
unchanged. -/
def get_log_like (g : GoodPluginState) : GoodPluginState × Rat :=
  (g, -99)

/-- GoodPlugin.inner_fit: returns self.get_log_like(). -/
def inner_fit (g : GoodPluginState) : GoodPluginState × Rat :=
  get_log_like g

/-- The inherited tag setter, acting on the GoodPlugin state. -/
def set_tag (g : GoodPluginState) (spec : List PyObj) :
    GoodPluginState × Option PyError × List PyWarning :=
  let r := PluginPrototype.set_tag g.toPluginState spec
  ({ toPluginState := r.1, _model := g._model }, r.2)

/-- The inherited nuisance-parameter updater, acting on the GoodPlugin
state. -/
def update_nuisance_parameters (g : GoodPluginState) (new_nuisance_parameters : PyObj) :
    GoodPluginState × Option PyError :=
  let r := PluginPrototype.update_nuisance_parameters g.toPluginState new_nuisance_parameters
  ({ toPluginState := r.1, _model := g._model }, r.2)

end GoodPlugin

/-!  Helper lemmas shared by the claims.  -/

/-- Inversion of a successful PluginPrototype.__init__: the stored name is the
one passed, the tag is None, and the argument was the stored dict. -/
theorem PluginPrototype.init_ok {name : String} {np : PyObj} {st : PluginState}
    (h : PluginPrototype.init name np = .ok st) :
    st._name = name ∧ st._tag = Option.none ∧ np = .dict st._nuisance_parameters := by
  unfold PluginPrototype.init at h
  split at h
  · exact absurd h (by simp)
  · split at h
    · exact absurd h (by simp)
    · cases np with
      | dict entries =>
          simp only [Except.ok.injEq] at h
          subst h
          exact ⟨rfl, rfl, rfl⟩
      | none => exact absurd h (by simp)
      | str s => exact absurd h (by simp)
      | float q => exact absurd h (by simp)
      | independentVariable i => exact absurd h (by simp)
      | parameter p => exact absurd h (by simp)
      | model i => exact absurd h (by simp)

/-- A valid, non-reserved name together with a dict makes __init__ succeed,
storing exactly the given entries. -/
theorem PluginPrototype.init_dict_ok (name : String) (entries : List (String × ParameterObj))
    (hv : is_valid_variable_name name = true) (ht : pyLower name ≠ "total") :
    PluginPrototype.init name (.dict entries) =
      .ok { _name := name, _nuisance_parameters := entries, _tag := Option.none } := by
  unfold PluginPrototype.init
  simp [hv, ht]

/-- An invalid name makes __init__ fail whatever the second argument is. -/
theorem PluginPrototype.init_invalid (name : String) (np : PyObj)
    (hv : is_valid_variable_name name = false) :
    PluginPrototype.init name np = .error .assertionError := by
  unfold PluginPrototype.init
  simp [hv]

/-- A non-dict second argument makes __init__ fail whatever the name is. -/
theorem PluginPrototype.init_not_dict (name : String) (np : PyObj)
    (hd : np.isDict = false) :
    PluginPrototype.init name np = .error .assertionError := by
  unfold PluginPrototype.init
  split
  · rfl
  · split
    · rfl
    · cases np <;> first | rfl | simp [PyObj.isDict] at hd

/-- A tag specification of length other than 2 and 3 leaves the state exactly
as it was and raises ValueError, with no warnings. -/
theorem PluginPrototype.set_tag_other (st : PluginState) (spec : List PyObj)
    (h2 : spec.length ≠ 2) (h3 : spec.length ≠ 3) :
    PluginPrototype.set_tag st spec = (st, some .valueError, []) := by
  rcases spec with _ | ⟨a, _ | ⟨b, _ | ⟨c, _ | ⟨d, rest⟩⟩⟩⟩
  · rfl
  · rfl
  · exact absurd rfl h2
  · exact absurd rfl h3
  · rfl

/-- The tag setter never touches the stored name. -/
theorem PluginPrototype.set_tag_fst_name (st : PluginState) (spec : List PyObj) :
    ((PluginPrototype.set_tag st spec).1)._name = st._name := by
  rcases spec with _ | ⟨a, _ | ⟨b, _ | ⟨c, _ | ⟨d, rest⟩⟩⟩⟩ <;> rfl

/-- The nuisance-parameter updater never touches the stored name. -/
theorem PluginPrototype.update_nuisance_fst_name (st : PluginState) (np : PyObj) :
    ((PluginPrototype.update_nuisance_parameters st np).1)._name = st._name := by
  cases np <;> rfl

/-- Inversion of a successful GoodPlugin.__init__. -/
theorem GoodPlugin.good_init_ok {name : String} {g : GoodPluginState}
    (h : GoodPlugin.init name = .ok g) :
    g._name = name ∧ g._tag = Option.none ∧ g._model = Option.none := by
  unfold GoodPlugin.init at h
  cases hinit : PluginPrototype.init name
      (.dict [((GoodPlugin.dummyParameter name).name, GoodPlugin.dummyParameter name)]) with
  | ok st =>
      rw [hinit] at h
      simp only [Except.ok.injEq] at h
      subst h
      obtain ⟨h1, h2, _⟩ := PluginPrototype.init_ok hinit
      exact ⟨h1, h2, rfl⟩
  | error e =>
      rw [hinit] at h
      exact absurd h (by simp)

/-!  Claims.  -/

/-- Claim C1: a concrete subclass of PluginPrototype omitting any of
set_model, get_log_like or inner_fit cannot be instantiated: construction
raises TypeError whatever the arguments are.  A subclass supplying all three
can be instantiated, as the notebook does with the arguments name and the
empty dict. -/
theorem C1_abstract_subclass_instantiation (c : PluginSubclass) :
    (∀ (name : String) (np : PyObj),
      (c.implements_set_model = false ∨ c.implements_get_log_like = false ∨
        c.implements_inner_fit = false) →
      instantiate c name np = .error .typeError) ∧
    (c.implements_set_model = true → c.implements_get_log_like = true →
      c.implements_inner_fit = true →
      ∃ st, instantiate c "name" (.dict []) = .ok st) := by
  constructor
  · intro name np h
    have hc : c.isConcrete = false := by
      rcases h with h | h | h <;> simp [PluginSubclass.isConcrete, h]
    simp [instantiate, hc]
  · intro h1 h2 h3
    have hc : c.isConcrete = true := by
      simp [PluginSubclass.isConcrete, h1, h2, h3]
    refine ⟨{ _name := "name", _nuisance_parameters := [], _tag := Option.none }, ?_⟩
    unfold instantiate
    rw [hc]
    simpa using PluginPrototype.init_dict_ok "name" [] (by decide) (by decide)

/-- Witness for C1 at the notebook subclasses: BadPlugin overrides nothing
and cannot be instantiated; a subclass overriding all three methods can. -/
theorem C1_witness :
    instantiate ⟨false, false, false⟩ "name" (.dict []) = .error .typeError ∧
    ∃ st, instantiate ⟨true, true, true⟩ "name" (.dict []) = .ok st :=
  ⟨(C1_abstract_subclass_instantiation ⟨false, false, false⟩).1 "name" (.dict [])
      (Or.inl rfl),
    (C1_abstract_subclass_instantiation ⟨true, true, true⟩).2 rfl rfl rfl⟩

/-- Claim C2 counterexample: the string Total is a valid variable name and is
not the exact reserved word total, yet construction fails, because the code
compares the lowercased name against the reserved word.  So it is not the
case that every valid identifier other than total is accepted. -/
theorem C2_counterexample :
    is_valid_variable_name "Total" = true ∧ "Total" ≠ "total" ∧
    PluginPrototype.init "Total" (.dict []) = .error .assertionError :=
  ⟨by decide, by decide, by rfl⟩

/-- Claim C2 as amended: construction fails for every name that is not a
valid variable name and for the name total; it succeeds for every valid
variable name whose LOWERCASING differs from total, when a dict of nuisance
parameters is supplied. -/
theorem C2_construction_validation (name : String) (np : PyObj) :
    (is_valid_variable_name name = false →
      PluginPrototype.init name np = .error .assertionError) ∧
    (name = "total" → PluginPrototype.init name np = .error .assertionError) ∧
    (is_valid_variable_name name = true → pyLower name ≠ "total" → np.isDict = true →
      ∃ st, PluginPrototype.init name np = .ok st) := by
  refine ⟨fun hv => PluginPrototype.init_invalid name np hv, ?_, ?_⟩
  · rintro rfl
    have h : pyLower "total" = "total" := by decide
    unfold PluginPrototype.init
    rw [show is_valid_variable_name "total" = true from by decide, h]
    simp
  · intro hv ht hd
    cases np with
    | dict entries =>
        exact ⟨_, PluginPrototype.init_dict_ok name entries hv ht⟩
    | none => simp [PyObj.isDict] at hd
    | str s => simp [PyObj.isDict] at hd
    | float q => simp [PyObj.isDict] at hd
    | independentVariable i => simp [PyObj.isDict] at hd
    | parameter p => simp [PyObj.isDict] at hd
    | model i => simp [PyObj.isDict] at hd

/-- Witness for C2: an invalid name fails, the reserved name fails even with
a non-dict argument pending, and a valid non-reserved name with a dict
succeeds. -/
theorem C2_witness :
    PluginPrototype.init "1bad" (.dict []) = .error .assertionError ∧
    PluginPrototype.init "total" (.dict []) = .error .assertionError ∧
    ∃ st, PluginPrototype.init "name" (.dict []) = .ok st :=
  ⟨(C2_construction_validation "1bad" (.dict [])).1 (by decide),
    (C2_construction_validation "total" (.dict [])).2.1 rfl,
    (C2_construction_validation "name" (.dict [])).2.2 (by decide) (by decide) rfl⟩

/-- Claim C8: the reserved-name check lowercases the name first, so every
name whose lowercasing is total is rejected, not only the exact string
total. -/
theorem C8_reserved_name_case_insensitive (name : String) (np : PyObj)
    (h : pyLower name = "total") :
    PluginPrototype.init name np = .error .assertionError := by
  unfold PluginPrototype.init
  by_cases hv : is_valid_variable_name name
  · simp [hv, h]
  · simp [hv]

/-- Witness for C8 at the capitalised name Total, which differs from the
exact reserved string yet is rejected. -/
theorem C8_witness :
    pyLower "Total" = "total" ∧ "Total" ≠ "total" ∧
    PluginPrototype.init "Total" (.str "x") = .error .assertionError :=
  ⟨by decide, by decide,
    C8_reserved_name_case_insensitive "Total" (.str "x") (by decide)⟩

/-- Claim C3: for every plugin constructed with a valid name, the name
property returns exactly the string passed at construction, and the value is
unchanged by set_model, get_log_like, inner_fit, tag assignment and
update_nuisance_parameters. -/
theorem C3_name_roundtrip_and_stability (name : String) (g : GoodPluginState)
    (h : GoodPlugin.init name = .ok g) :
    PluginPrototype.name g.toPluginState = name ∧
    (∀ m, PluginPrototype.name (GoodPlugin.set_model g m).toPluginState = name) ∧
    (∀ g2 v, GoodPlugin.get_log_like g = (g2, v) →
      PluginPrototype.name g2.toPluginState = name) ∧
    (∀ g2 v, GoodPlugin.inner_fit g = (g2, v) →
      PluginPrototype.name g2.toPluginState = name) ∧
    (∀ spec, PluginPrototype.name ((GoodPlugin.set_tag g spec).1).toPluginState = name) ∧
    (∀ np, PluginPrototype.name
      ((GoodPlugin.update_nuisance_parameters g np).1).toPluginState = name) := by
  obtain ⟨h1, -, -⟩ := GoodPlugin.good_init_ok h
  refine ⟨h1, fun m => h1, ?_, ?_, ?_, ?_⟩
  · intro g2 v hg
    have hgg : g = g2 := congrArg Prod.fst hg
    rw [← hgg]
    exact h1
  · intro g2 v hg
    have hgg : g = g2 := congrArg Prod.fst hg
    rw [← hgg]
    exact h1
  · intro spec
    show ((PluginPrototype.set_tag g.toPluginState spec).1)._name = name
    rw [PluginPrototype.set_tag_fst_name]
    exact h1
  · intro np
    show ((PluginPrototype.update_nuisance_parameters g.toPluginState np).1)._name = name
    rw [PluginPrototype.update_nuisance_fst_name]
    exact h1

/-- Witness for C3 at the notebook instantiation GoodPlugin with the
argument name. -/
theorem C3_witness :
    PluginPrototype.name
      (⟨⟨"name", [("dummy_name", GoodPlugin.dummyParameter "name")], Option.none⟩,
        Option.none⟩ : GoodPluginState).toPluginState = "name" :=
  (C3_name_roundtrip_and_stability "name"
    ⟨⟨"name", [("dummy_name", GoodPlugin.dummyParameter "name")], Option.none⟩,
      Option.none⟩ (by rfl)).1

/-- Claim C4: for every dict passed at construction the nuisance_parameters
property returns exactly that dict, and constructing with a non-dict value
fails. -/
theorem C4_nuisance_roundtrip (name : String) (entries : List (String × ParameterObj))
    (np : PyObj) (hv : is_valid_variable_name name = true) (ht : pyLower name ≠ "total") :
    (∃ st, PluginPrototype.init name (.dict entries) = .ok st ∧
      PluginPrototype.nuisance_parameters st = .dict entries) ∧
    (np.isDict = false → PluginPrototype.init name np = .error .assertionError) :=
  ⟨⟨_, PluginPrototype.init_dict_ok name entries hv ht, rfl⟩,
    fun hd => PluginPrototype.init_not_dict name np hd⟩

/-- Witness for C4 at the dummy-parameter dict and at a string argument. -/
theorem C4_witness :
    (∃ st, PluginPrototype.init "name" (.dict [("p", GoodPlugin.dummyParameter "p")]) = .ok st ∧
      PluginPrototype.nuisance_parameters st = .dict [("p", GoodPlugin.dummyParameter "p")]) ∧
    PluginPrototype.init "name" (.str "x") = .error .assertionError :=
  ⟨(C4_nuisance_roundtrip "name" [("p", GoodPlugin.dummyParameter "p")] (.str "x")
      (by decide) (by decide)).1,
    (C4_nuisance_roundtrip "name" [("p", GoodPlugin.dummyParameter "p")] (.str "x")
      (by decide) (by decide)).2 rfl⟩

/-- Claim C5: for a plugin with no nuisance parameters, inner_fit returns the
same value as get_log_like.  In GoodPlugin inner_fit literally returns
self.get_log_like(), so this holds. -/
theorem C5_inner_fit_equals_log_like (g : GoodPluginState)
    (_h : g._nuisance_parameters = []) :
    (GoodPlugin.inner_fit g).2 = (GoodPlugin.get_log_like g).2 :=
  rfl

/-- Witness for C5 at a GoodPlugin state with an empty nuisance dict. -/
theorem C5_witness :
    (GoodPlugin.inner_fit ⟨⟨"name", [], Option.none⟩, Option.none⟩).2 =
      (GoodPlugin.get_log_like ⟨⟨"name", [], Option.none⟩, Option.none⟩).2 :=
  C5_inner_fit_equals_log_like ⟨⟨"name", [], Option.none⟩, Option.none⟩ rfl

/-- Claim C6: a tag specification of length 2 stores (independent_variable,
start, None), one of length 3 stores (independent_variable, start, end), any
other length raises ValueError, and reading the tag returns exactly the
stored triple. -/
theorem C6_tag_set_and_get (st : PluginState) (iv s e : PyObj) :
    ((PluginPrototype.set_tag st [iv, s]).1._tag = some (iv, s, PyObj.none) ∧
      (PluginPrototype.set_tag st [iv, s]).2.1 = Option.none) ∧
    ((PluginPrototype.set_tag st [iv, s, e]).1._tag = some (iv, s, e) ∧
      (PluginPrototype.set_tag st [iv, s, e]).2.1 = Option.none) ∧
    (∀ spec : List PyObj, spec.length ≠ 2 → spec.length ≠ 3 →
      (PluginPrototype.set_tag st spec).2.1 = some .valueError) ∧
    PluginPrototype.get_tag (PluginPrototype.set_tag st [iv, s]).1 =
      some (iv, s, PyObj.none) ∧
    PluginPrototype.get_tag (PluginPrototype.set_tag st [iv, s, e]).1 = some (iv, s, e) := by
  refine ⟨⟨rfl, rfl⟩, ⟨rfl, rfl⟩, ?_, rfl, rfl⟩
  intro spec h2 h3
  rw [PluginPrototype.set_tag_other st spec h2 h3]

/-- Witness for C6 at concrete tag specifications of lengths 2 and 1. -/
theorem C6_witness :
    (PluginPrototype.set_tag ⟨"name", [], Option.none⟩
      [.independentVariable 0, .float 1]).1._tag =
      some (.independentVariable 0, .float 1, PyObj.none) ∧
    (PluginPrototype.set_tag ⟨"name", [], Option.none⟩ [.float 1]).2.1 =
      some .valueError :=
  ⟨(C6_tag_set_and_get ⟨"name", [], Option.none⟩ (.independentVariable 0) (.float 1)
      PyObj.none).1.1,
    (C6_tag_set_and_get ⟨"name", [], Option.none⟩ (.independentVariable 0) (.float 1)
      PyObj.none).2.2.1 [.float 1] (by decide) (by decide)⟩

/-- Claim C7: the deprecated get_name accessor does not fail: it emits a
deprecation warning and returns the same string as the name property. -/
theorem C7_get_name_deprecated (st : PluginState) :
    (PluginPrototype.get_name st).1 = PluginPrototype.name st ∧
    (PluginPrototype.get_name st).2 =
      [.deprecationWarning "Do not use get_name for plugins, use the .name property"] :=
  ⟨rfl, rfl⟩

/-- Claim C9: a tag specification of bad length raises ValueError before any
assignment: the state returned by the failed call is exactly the input state,
whose tag is None right after construction. -/
theorem C9_set_tag_atomic (st : PluginState) (spec : List PyObj)
    (h2 : spec.length ≠ 2) (h3 : spec.length ≠ 3) :
    PluginPrototype.set_tag st spec = (st, some .valueError, []) ∧
    (∀ (name : String) (np : PyObj) (st0 : PluginState),
      PluginPrototype.init name np = .ok st0 → st0._tag = Option.none) :=
  ⟨PluginPrototype.set_tag_other st spec h2 h3,
    fun _ _ _ h => (PluginPrototype.init_ok h).2.1⟩

/-- Witness for C9 at the empty tag specification. -/
theorem C9_witness :
    PluginPrototype.set_tag ⟨"name", [], Option.none⟩ [] =
      (⟨"name", [], Option.none⟩, some .valueError, []) :=
  (C9_set_tag_atomic ⟨"name", [], Option.none⟩ [] (by decide) (by decide)).1

/-- Claim C10: the default get_number_of_data_points warns that statistical
measurements such as AIC or BIC are unreliable and returns the float 1,
whatever the plugin state is. -/
theorem C10_default_number_of_data_points (st : PluginState) :
    PluginPrototype.get_number_of_data_points st =
      (1, [.userWarning "get_number_of_data_points not implemented, values for statistical measurements such as AIC or BIC are unreliable"]) :=
  rfl
